import Mathlib

/-!
Shallow embedding of the CynVoice TTS proxy (custom_components/cynvoice):
constants from const.py, the upstream payload builders and parameter
resolution from cynvoice_engine.py and tts.py, and the streaming HTTP
view from __init__.py.  Python floats are modelled as rationals (they are
only carried through, never computed with), dict lookups as Option-valued
layers, and the asynchronous relay loop as a pure trace-producing function.
-/

namespace CynVoice

/-! ## Constants (const.py) -/

def DEFAULT_URL : String := "http://35.196.176.54/v1/tts"

def DEFAULT_VOICE : String := "cyn2"

def DEFAULT_TEMPERATURE : Rat := 19/20

def DEFAULT_REPETITION_PENALTY : Rat := 11/10

def DEFAULT_STREAMING : Bool := false

/-! ## Upstream JSON payload (cynvoice_engine.py) -/

/-- The upstream JSON payload built by both engine paths
(`get_tts` lines 84-98 and `async_get_tts_stream` lines 140-154). -/
structure Payload where
  text : String
  chunk_length : Nat
  format : String
  references : List String
  reference_id : String
  seed : Option Nat
  use_memory_cache : String
  normalize : Bool
  streaming : Bool
  max_new_tokens : Nat
  top_p : Rat
  repetition_penalty : Rat
  temperature : Rat
deriving DecidableEq, Repr

/-- Per-connection stored engine state (`CynVoiceEngine.__init__`). -/
structure Engine where
  url : String
  voice : String
  temperature : Rat
  repetition_penalty : Rat
  streaming : Bool
deriving DecidableEq, Repr

/-- `x if x is not None else self._x` (cynvoice_engine.py lines 67-70,
131-133): an explicit non-null override argument wins over the stored
value. -/
def resolveOverride {α : Type} (override : Option α) (stored : α) : α :=
  override.getD stored

/-- `self._options.get(key, self._config.get(key, default))`
(tts.py lines 82-84), with each dict layer modelled as the optional value
it holds for the key at hand. -/
def get_option_or_config {α : Type} (optionVal configVal : Option α) (default : α) : α :=
  optionVal.getD (configVal.getD default)

/-- Full resolution chain for one synthesis parameter: the engine is
constructed with `_get_option_or_config` values (tts.py lines 73-80) and
`get_tts` then applies the override-or-stored rule (engine lines 67-70). -/
def resolveChain {α : Type} (override optionVal configVal : Option α) (default : α) : α :=
  resolveOverride override (get_option_or_config optionVal configVal default)

/-- Spec-side resolver, modelled on the spec's words: an ordered list of
layers, the first present layer wins, else the compiled-in default. -/
def firstPresent {α : Type} : List (Option α) → α → α
  | [], d => d
  | some v :: _, _ => v
  | none :: rest, d => firstPresent rest d

/-- Payload built by the blocking `CynVoiceEngine.get_tts`
(cynvoice_engine.py lines 66-98).  Note line 93: the `streaming` field is
the literal `False`, not the resolved flag (the code comments at lines
72-77 call this a forced standard download). -/
def get_tts_payload (e : Engine) (text : String)
    (voice : Option String) (temperature : Option Rat)
    (repetition_penalty : Option Rat) (streaming : Option Bool) : Payload :=
  let v := resolveOverride voice e.voice
  let t := resolveOverride temperature e.temperature
  let r := resolveOverride repetition_penalty e.repetition_penalty
  let _s := resolveOverride streaming e.streaming
  { text := text
    chunk_length := 200
    format := "wav"
    references := []
    reference_id := v
    seed := none
    use_memory_cache := "off"
    normalize := true
    streaming := false
    max_new_tokens := 1024
    top_p := 4/5
    repetition_penalty := r
    temperature := t }

/-- Payload built by `CynVoiceEngine.async_get_tts_stream`
(cynvoice_engine.py lines 122-154); line 149 always sets
`streaming: True`. -/
def async_get_tts_stream_payload (e : Engine) (text : String)
    (voice : Option String) (temperature : Option Rat)
    (repetition_penalty : Option Rat) : Payload :=
  let v := resolveOverride voice e.voice
  let t := resolveOverride temperature e.temperature
  let r := resolveOverride repetition_penalty e.repetition_penalty
  { text := text
    chunk_length := 200
    format := "wav"
    references := []
    reference_id := v
    seed := none
    use_memory_cache := "off"
    normalize := true
    streaming := true
    max_new_tokens := 1024
    top_p := 4/5
    repetition_penalty := r
    temperature := t }

/-! ## Query-parameter coercion (__init__.py lines 114-125) -/

/-- Whitespace stripping as Python `float()` does before parsing. -/
def stripWs (cs : List Char) : List Char :=
  ((cs.dropWhile Char.isWhitespace).reverse.dropWhile Char.isWhitespace).reverse

/-- Numeric value of a digit string (most significant first). -/
def digitsVal (cs : List Char) : Nat :=
  cs.foldl (fun a c => a * 10 + (c.toNat - 48)) 0

/-- Optional exponent suffix of a float literal: empty, or `e`/`E`,
optional sign, at least one digit and nothing after. -/
def parseExp (cs : List Char) (m : Rat) : Option Rat :=
  match cs with
  | [] => some m
  | c :: rest =>
    if c = 'e' ∨ c = 'E' then
      let signed : Int × List Char :=
        match rest with
        | '+' :: r => (1, r)
        | '-' :: r => (-1, r)
        | r => (1, r)
      let (ds, tail) := signed.2.span Char.isDigit
      if ds.isEmpty ∨ ¬ tail.isEmpty then none
      else some (m * (10 : Rat) ^ (signed.1 * digitsVal ds))
    else none

/-- Unsigned decimal float literal: digits, optional point with optional
fraction digits (at least one digit overall), optional exponent. -/
def parseUnsigned (cs : List Char) : Option Rat :=
  let (intPart, rest) := cs.span Char.isDigit
  match rest with
  | '.' :: rest2 =>
    let (fracPart, rest3) := rest2.span Char.isDigit
    if intPart.isEmpty ∧ fracPart.isEmpty then none
    else parseExp rest3
      ((digitsVal intPart : Rat) + (digitsVal fracPart : Rat) / (10 : Rat) ^ fracPart.length)
  | _ => if intPart.isEmpty then none else parseExp rest (digitsVal intPart)

/-- Python `float(s)` on decimal literals: strip whitespace, optional
sign, decimal mantissa, optional exponent; `none` models the `ValueError`
raised on any other input.  (The special values `inf`/`nan` have no
rational counterpart and are outside the inputs this code ever computes
with.) -/
def pyFloat (s : String) : Option Rat :=
  match stripWs s.toList with
  | '+' :: cs => parseUnsigned cs
  | '-' :: cs => (parseUnsigned cs).map Neg.neg
  | cs => parseUnsigned cs

/-- `try: temperature = float(params.get("temperature", DEFAULT_TEMPERATURE))
except Exception: temperature = DEFAULT_TEMPERATURE` (__init__.py
lines 116-119): an absent parameter is the float default itself, a present
string is coerced best-effort with fallback to the default. -/
def viewResolveTemperature (q : Option String) : Rat :=
  match q with
  | none => DEFAULT_TEMPERATURE
  | some s => (pyFloat s).getD DEFAULT_TEMPERATURE

/-- Same shape for `repetition_penalty` (__init__.py lines 120-123). -/
def viewResolveRepetitionPenalty (q : Option String) : Rat :=
  match q with
  | none => DEFAULT_REPETITION_PENALTY
  | some s => (pyFloat s).getD DEFAULT_REPETITION_PENALTY

/-- Python `params.get(k) or default`: a missing or empty (falsy) string
yields the default (__init__.py lines 115 and 125). -/
def orDefault (q : Option String) (d : String) : String :=
  match q with
  | some s => if s.isEmpty then d else s
  | none => d

/-- Hexadecimal digit value, if any. -/
def hexVal (c : Char) : Option Nat :=
  if c.isDigit then some (c.toNat - 48)
  else if 'a' ≤ c ∧ c ≤ 'f' then some (c.toNat - 87)
  else if 'A' ≤ c ∧ c ≤ 'F' then some (c.toNat - 55)
  else none

/-- Percent-decoding as `urllib.parse.unquote` performs on ASCII input:
`%XY` with two hex digits becomes the coded character, anything else is
kept verbatim. -/
def unquoteChars : List Char → List Char
  | '%' :: a :: b :: rest =>
    match hexVal a, hexVal b with
    | some x, some y => Char.ofNat (16 * x + y) :: unquoteChars rest
    | _, _ => '%' :: unquoteChars (a :: b :: rest)
  | c :: rest => c :: unquoteChars rest
  | [] => []

/-- `text = unquote(params.get("text", ""))` (__init__.py line 114): a
missing `text` parameter is the empty string. -/
def viewText (q : Option String) : String :=
  String.mk (unquoteChars (q.getD "").toList)

/-! ## Streaming view (__init__.py lines 99-163) -/

/-- `requires_auth = False` on `CynVoiceStreamView` (__init__.py
line 104). -/
def CynVoiceStreamView_requires_auth : Bool := false

/-- `url = "/api/cynvoice/tts_stream"` (__init__.py line 102). -/
def CynVoiceStreamView_url : String := "/api/cynvoice/tts_stream"

/-- Observable events of one streaming relay invocation, in program
order: committing the downstream chunked response (`resp.prepare`),
issuing the upstream POST with its payload, requesting the next upstream
chunk, a successful or failed downstream write, the downstream
end-of-stream signal (`resp.write_eof`), and releasing the upstream
channel. -/
inductive Ev where
  | prepare (status : Nat)
  | post (p : Payload)
  | reqChunk
  | write (c : List Nat)
  | writeFail
  | writeEof
  | closeUpstream
deriving DecidableEq, Repr

/-- Mocked upstream behavior: the POST raises before any response
(connection error or timeout), or a response arrives with a status, a
list of body chunks as `iter_chunked(8192)` yields them, and a flag for a
read error after the listed chunks instead of a clean end-of-body. -/
inductive UpstreamMock where
  | postError (e : String)
  | response (status : Nat) (chunks : List (List Nat)) (midErr : Bool)
deriving DecidableEq, Repr

/-- What the handler returns: the prepared stream response, or a plain
`web.Response(status=..., text=...)`. -/
inductive Resp where
  | stream
  | plain (status : Nat) (body : String)
deriving DecidableEq, Repr

/-- The forwarding loop (__init__.py lines 152-156): request a chunk,
skip it if empty (`if chunk:`), otherwise write it downstream before
requesting the next one; on end-of-body send `write_eof`.  `df i = true`
means the write of the i-th forwarded chunk raises (downstream
disconnect); `midErr` means the read after the listed chunks raises. -/
def relayLoop : List (List Nat) → Bool → (Nat → Bool) → Nat → List Ev × Except String Unit
  | [], midErr, _, _ =>
    if midErr then ([.reqChunk], .error "upstream read error")
    else ([.reqChunk, .writeEof], .ok ())
  | c :: cs, midErr, df, i =>
    if c.isEmpty then
      let (evs, r) := relayLoop cs midErr df i
      (.reqChunk :: evs, r)
    else if df i then
      ([.reqChunk, .writeFail], .error "downstream write failed")
    else
      let (evs, r) := relayLoop cs midErr df (i + 1)
      (.reqChunk :: .write c :: evs, r)

/-- Modelled from the spec: the `async_stream_tts` method of the
session-reusing engine variant, repository code that is not under src/ —
src/ keeps only its callers (`engine.async_stream_tts(...)`, __init__.py
line 145) and its superseded twin `async_get_tts_stream`
(cynvoice_engine.py lines 122-172).  Per the spec (§4.2 streaming mode,
steps 1 and 6) it issues the POST with the streaming payload and hands
back the open upstream channel; a connection error or timeout raises,
and a non-2xx status raises with the channel released — exactly the
`raise_for_status` inside the context manager that the superseded src
twin also performs.  On success the listed body chunks (and a possible
mid-body read error) remain to be drained by the caller. -/
def async_stream_tts_open (p : Payload) (up : UpstreamMock) :
    List Ev × Except String (List (List Nat) × Bool) :=
  match up with
  | .postError e => ([.post p], .error e)
  | .response status chunks midErr =>
    if 200 ≤ status ∧ status < 300 then ([.post p], .ok (chunks, midErr))
    else ([.post p, .closeUpstream], .error ("upstream status " ++ toString status))

/-- Body of the outer `try` (__init__.py lines 144-158, code under src/):
obtain the upstream channel from `async_stream_tts` (the spec-modelled
`async_stream_tts_open` above), run the forwarding loop, and release the
upstream channel in the `finally` block on every path on which it was
opened. -/
def relayInner (p : Payload) (up : UpstreamMock) (df : Nat → Bool) :
    List Ev × Except String Unit :=
  let (evs0, r0) := async_stream_tts_open p up
  match r0 with
  | .error e => (evs0, .error e)
  | .ok (chunks, midErr) =>
    let (evs, r) := relayLoop chunks midErr df 0
    (evs0 ++ evs ++ [.closeUpstream], r)

/-- Modelled from the spec: the payload the missing session-reusing
engine variant's `async_stream_tts` sends upstream — "the same POST but
with `streaming=true` in the payload" (spec §4.2 streaming step 1, field
list in §4.1), built here by the superseded src twin's builder
`async_get_tts_stream_payload`.  The engine construction and the
explicitly passed resolved parameters are the view's own code
(__init__.py lines 114-135 and 145-150, under src/). -/
def viewStreamPayload (textQ voiceQ tempQ rpQ urlQ : Option String) : Payload :=
  let voice := orDefault voiceQ DEFAULT_VOICE
  let temp := viewResolveTemperature tempQ
  let rp := viewResolveRepetitionPenalty rpQ
  let url := orDefault urlQ DEFAULT_URL
  let engine : Engine :=
    { url := url, voice := voice, temperature := temp,
      repetition_penalty := rp, streaming := true }
  async_get_tts_stream_payload engine (viewText textQ) (some voice) (some temp) (some rp)

/-- Modelled from the spec: `CynVoiceStreamView.get` (__init__.py lines
109-163) driving the session-reusing engine variant that the repository
contains outside src/ — the handler passes `session=` to the engine
constructor (line 128) and calls `async_stream_tts` (line 145), neither
of which the superseded engine kept under src/ accepts, so the engine
the handler targets is modelled from the spec (construction succeeds,
POST semantics as in `async_stream_tts_open`).  Every other step is the
handler's own code under src/, as written: resolve the query parameters
(lines 114-125), prepare and commit the downstream 200 chunked response
before the `try` (lines 137-142), run the forwarding loop with the
`finally` close (lines 144-158), and convert any caught exception into a
plain 500 "Streaming error" response (lines 159-161). -/
def viewGet (textQ voiceQ tempQ rpQ urlQ : Option String)
    (up : UpstreamMock) (df : Nat → Bool) : List Ev × Resp :=
  let p := viewStreamPayload textQ voiceQ tempQ rpQ urlQ
  let (evs, r) := relayInner p up df
  match r with
  | .ok _ => (Ev.prepare 200 :: evs, .stream)
  | .error _ => (Ev.prepare 200 :: evs, .plain 500 "Streaming error")

/-- The upstream POST failed before any body bytes: connection error /
timeout, or a non-2xx status rejected by `raise_for_status`. -/
def upstreamPostFailed : UpstreamMock → Bool
  | .postError _ => true
  | .response status _ _ => if 200 ≤ status ∧ status < 300 then false else true

/-! ## Non-streaming path (cynvoice_engine.py lines 102-120, tts.py
lines 137-152) -/

/-- `AudioResponse` wrapper (cynvoice_engine.py lines 18-21). -/
structure AudioResponse where
  content : List Nat
deriving DecidableEq, Repr

/-- `urlopen(req, timeout=60)` against a mocked upstream with the given
status and body: a 2xx response yields the body, any other status raises
`HTTPError` (modelled as the error case). -/
def urlopenMock (status : Nat) (body : List Nat) : Except String (List Nat) :=
  if 200 ≤ status ∧ status < 300 then .ok body
  else .error ("HTTP Error " ++ toString status)

/-- Tail of `get_tts` (cynvoice_engine.py lines 102-120): on success read
the entire body into one `AudioResponse`; any exception is re-raised as
`HomeAssistantError("Error fetching TTS: ...")`. -/
def get_tts_result (upstream : Except String (List Nat)) : Except String AudioResponse :=
  match upstream with
  | .ok b => .ok ⟨b⟩
  | .error e => .error ("Error fetching TTS: " ++ e)

/-- Modelled from the spec: `CynVoiceEntity.async_get_tts_audio`'s
fallback download (tts.py lines 137-152, under src/) calls
`self._engine.async_get_tts` (line 139), a method of the session-reusing
engine variant that is not under src/.  Per the spec's non-streaming
mode (§4.2) — and its superseded src twin `get_tts`
(cynvoice_engine.py lines 102-120, embedded above as `get_tts_result`) —
that method returns the full body as one buffer on success and raises
on any failure.  The caller itself is src/ code: on success return
`("wav", data)`, on any engine exception return `None`. -/
def async_get_tts_audio (upstream : Except String (List Nat)) :
    Option (String × List Nat) :=
  match get_tts_result upstream with
  | .ok r => some ("wav", r.content)
  | .error _ => none

/-! ## Trace helper predicates -/

/-- Keep only the events the downstream sink observes: chunk writes and
the end-of-stream signal. -/
def sinkEvents (t : List Ev) : List Ev :=
  t.filter (fun e =>
    match e with
    | .write _ => true
    | .writeEof => true
    | _ => false)

/-- No upstream chunk is requested after a downstream write failure. -/
def noReqAfterWriteFail : List Ev → Bool
  | [] => true
  | Ev.writeFail :: rest =>
    rest.all (fun e =>
      match e with
      | Ev.reqChunk => false
      | _ => true)
  | _ :: rest => noReqAfterWriteFail rest

/-! ## Theorems -/

/-- An engine whose stored streaming flag is on (e.g. built from a config
entry with `streaming: true`). -/
def engineStreamingOn : Engine :=
  { url := DEFAULT_URL, voice := DEFAULT_VOICE, temperature := DEFAULT_TEMPERATURE,
    repetition_penalty := DEFAULT_REPETITION_PENALTY, streaming := true }

/-- Claim C2 as stated: every built payload's `streaming` field equals
the resolved streaming flag of the request. -/
def claimC2statement : Prop :=
  ∀ (e : Engine) (text : String) (v : Option String) (t r : Option Rat) (s : Option Bool),
    (get_tts_payload e text v t r s).streaming = resolveOverride s e.streaming ∧
    (async_get_tts_stream_payload e text v t r).streaming = true

/-- C2 is false as stated: with a stored streaming flag of `true` and no
override, the resolved flag is `true` but `get_tts` puts the literal
`False` in the payload (cynvoice_engine.py line 93). -/
theorem c2_counterexample : ¬ claimC2statement := by
  intro h
  have h1 := (h engineStreamingOn "hello" none none none none).1
  simp [get_tts_payload, resolveOverride, engineStreamingOn] at h1

/-- C2 (amended): `get_tts` always sets the payload `streaming` field to
`false`, ignoring the resolved streaming flag (the code forces a standard
download), while `async_get_tts_stream` always sets it to `true`, so in
streaming mode the POST payload does carry `streaming=true`. -/
theorem c2_amended :
    ∀ (e : Engine) (text : String) (v : Option String) (t r : Option Rat) (s : Option Bool),
      (get_tts_payload e text v t r s).streaming = false ∧
      (async_get_tts_stream_payload e text v t r).streaming = true := by
  intro e text v t r s
  exact ⟨rfl, rfl⟩

/-- C3: for all inputs, every fixed field of both built payloads equals
its specified constant — `chunk_length=200`, `format="wav"`,
`references=[]`, `seed=null`, `normalize=true`, `max_new_tokens=1024`,
`top_p=0.8` — and `reference_id` is the resolved voice. -/
theorem c3_fixed_fields :
    ∀ (e : Engine) (text : String) (v : Option String) (t r : Option Rat) (s : Option Bool),
      (get_tts_payload e text v t r s).chunk_length = 200 ∧
      (get_tts_payload e text v t r s).format = "wav" ∧
      (get_tts_payload e text v t r s).references = [] ∧
      (get_tts_payload e text v t r s).seed = none ∧
      (get_tts_payload e text v t r s).normalize = true ∧
      (get_tts_payload e text v t r s).max_new_tokens = 1024 ∧
      (get_tts_payload e text v t r s).top_p = 4/5 ∧
      (get_tts_payload e text v t r s).reference_id = resolveOverride v e.voice ∧
      (async_get_tts_stream_payload e text v t r).chunk_length = 200 ∧
      (async_get_tts_stream_payload e text v t r).format = "wav" ∧
      (async_get_tts_stream_payload e text v t r).references = [] ∧
      (async_get_tts_stream_payload e text v t r).seed = none ∧
      (async_get_tts_stream_payload e text v t r).normalize = true ∧
      (async_get_tts_stream_payload e text v t r).max_new_tokens = 1024 ∧
      (async_get_tts_stream_payload e text v t r).top_p = 4/5 ∧
      (async_get_tts_stream_payload e text v t r).reference_id = resolveOverride v e.voice := by
  intro e text v t r s
  exact ⟨rfl, rfl, rfl, rfl, rfl, rfl, rfl, rfl, rfl, rfl, rfl, rfl, rfl, rfl, rfl, rfl⟩

/-- C4: the code's chained resolution (override via `x if x is not None
else self._x` over the engine value built by `_get_option_or_config`)
picks the first present layer in the order override, stored option,
stored config, compiled-in default — and the compiled-in defaults are
voice="cyn2", temperature=0.95, repetitionPenalty=1.1, streaming=false. -/
theorem c4_resolution_precedence :
    (∀ (α : Type) (o p c : Option α) (d : α),
        resolveChain o p c d = firstPresent [o, p, c] d) ∧
      DEFAULT_VOICE = "cyn2" ∧ DEFAULT_TEMPERATURE = 19/20 ∧
      DEFAULT_REPETITION_PENALTY = 11/10 ∧ DEFAULT_STREAMING = false := by
  refine ⟨?_, rfl, rfl, rfl, rfl⟩
  intro α o p c d
  cases o <;> cases p <;> cases c <;> rfl

/-- C5: a `temperature` or `repetition_penalty` query value that Python
`float()` rejects never propagates an error: the view falls back to the
corresponding default (0.95 resp. 1.1). -/
theorem c5_coercion_fallback (s : String) (hfail : pyFloat s = none) :
    viewResolveTemperature (some s) = DEFAULT_TEMPERATURE ∧
    viewResolveRepetitionPenalty (some s) = DEFAULT_REPETITION_PENALTY := by
  simp [viewResolveTemperature, viewResolveRepetitionPenalty, hfail]

theorem c5_coercion_fallback_witness :
    pyFloat "abc" = none ∧
    (viewResolveTemperature (some "abc") = DEFAULT_TEMPERATURE ∧
      viewResolveRepetitionPenalty (some "abc") = DEFAULT_REPETITION_PENALTY) :=
  ⟨by decide, c5_coercion_fallback "abc" (by decide)⟩

/-- C7: in non-streaming mode a 2xx upstream with body B yields exactly
B tagged "wav"; a 503 upstream makes the engine report an upstream
status error and the buffered-mode caller observes `None` — no bytes
forwarded, no partial payload.  The engine fetch is the spec-modelled
`async_get_tts` of the session-reusing variant absent from src/,
mirrored by its superseded src twin `get_tts` (embedded as
`get_tts_result`); the caller wiring is tts.py lines 137-152. -/
theorem c7_non_streaming_relay :
    ∀ (B B2 : List Nat),
      async_get_tts_audio (urlopenMock 200 B) = some ("wav", B) ∧
      async_get_tts_audio (urlopenMock 503 B2) = none ∧
      get_tts_result (urlopenMock 503 B2) =
        Except.error "Error fetching TTS: HTTP Error 503" := by
  intro B B2
  exact ⟨rfl, rfl, rfl⟩

/-- C9: both engine paths set `use_memory_cache` to the string "off" in
every payload they build. -/
theorem c9_use_memory_cache_off :
    ∀ (e : Engine) (text : String) (v : Option String) (t r : Option Rat) (s : Option Bool),
      (get_tts_payload e text v t r s).use_memory_cache = "off" ∧
      (async_get_tts_stream_payload e text v t r).use_memory_cache = "off" := by
  intro e text v t r s
  exact ⟨rfl, rfl⟩

/-! ### Relay loop lemmas -/

/-- Every write in a trace comes immediately after the request that
produced its chunk: a received chunk is forwarded before anything else
happens, in particular before the next chunk is requested — no
reordering, no batching. -/
def writesFollowRequest : List Ev → Bool
  | [] => true
  | Ev.reqChunk :: Ev.write _ :: rest => writesFollowRequest rest
  | Ev.write _ :: _ => false
  | _ :: rest => writesFollowRequest rest

lemma relayLoop_count_close (cs : List (List Nat)) (m : Bool) (df : Nat → Bool) (i : Nat) :
    ((relayLoop cs m df i).1.count Ev.closeUpstream) = 0 := by
  induction cs generalizing i with
  | nil =>
    cases m <;> simp [relayLoop, List.count_cons]
  | cons c cs ih =>
    by_cases hc : c.isEmpty
    · simp [relayLoop, hc, List.count_cons, ih]
    · by_cases hd : df i
      · simp [relayLoop, hc, hd, List.count_cons]
      · simp [relayLoop, hc, hd, List.count_cons, ih]

lemma relayLoop_sink_success (cs : List (List Nat)) (i : Nat) :
    sinkEvents (relayLoop cs false (fun _ => false) i).1 =
      (cs.filter (fun c => !c.isEmpty)).map Ev.write ++ [Ev.writeEof] ∧
    (relayLoop cs false (fun _ => false) i).2 = Except.ok () := by
  induction cs generalizing i with
  | nil => simp [relayLoop, sinkEvents]
  | cons c cs ih =>
    by_cases hc : c.isEmpty
    · simpa [relayLoop, hc, sinkEvents, List.filter_cons] using ih i
    · simpa [relayLoop, hc, sinkEvents, List.filter_cons] using ih (i + 1)

lemma writesFollowRequest_relayLoop (cs : List (List Nat)) (m : Bool) (df : Nat → Bool) (i : Nat) :
    writesFollowRequest ((relayLoop cs m df i).1 ++ [Ev.closeUpstream]) = true := by
  induction cs generalizing i with
  | nil => cases m <;> simp [relayLoop, writesFollowRequest]
  | cons c cs ih =>
    by_cases hc : c.isEmpty
    · have h0 : ∃ rest, (relayLoop cs m df i).1 = Ev.reqChunk :: rest := by
        cases cs with
        | nil => cases m <;> exact ⟨_, rfl⟩
        | cons d ds =>
          by_cases hd : d.isEmpty
          · simp [relayLoop, hd]
          · by_cases hdf : df i
            · simp [relayLoop, hd, hdf]
            · simp [relayLoop, hd, hdf]
      obtain ⟨rest, hrest⟩ := h0
      have := ih i
      simp only [relayLoop, hc, if_pos] at *
      rw [hrest] at this ⊢
      simpa [writesFollowRequest] using this
    · by_cases hd : df i
      · simp [relayLoop, hc, hd, writesFollowRequest, List.all]
      · have := ih (i + 1)
        simp only [relayLoop, hc, hd] at *
        simpa [writesFollowRequest] using this

lemma noReqAfterWriteFail_relayLoop (cs : List (List Nat)) (m : Bool) (df : Nat → Bool) (i : Nat) :
    noReqAfterWriteFail ((relayLoop cs m df i).1 ++ [Ev.closeUpstream]) = true := by
  induction cs generalizing i with
  | nil => cases m <;> simp [relayLoop, noReqAfterWriteFail]
  | cons c cs ih =>
    by_cases hc : c.isEmpty
    · simpa [relayLoop, hc, noReqAfterWriteFail] using ih i
    · by_cases hd : df i
      · simp [relayLoop, hc, hd, noReqAfterWriteFail]
      · simpa [relayLoop, hc, hd, noReqAfterWriteFail] using ih (i + 1)

lemma post_mem_viewGet (textQ voiceQ tempQ rpQ urlQ : Option String)
    (up : UpstreamMock) (df : Nat → Bool) :
    Ev.post (viewStreamPayload textQ voiceQ tempQ rpQ urlQ) ∈
      (viewGet textQ voiceQ tempQ rpQ urlQ up df).1 := by
  cases up with
  | postError e => simp [viewGet, relayInner, async_stream_tts_open]
  | response status chunks midErr =>
    by_cases h : 200 ≤ status ∧ status < 300
    · rcases hE : relayLoop chunks midErr df 0 with ⟨evs, r⟩
      cases r <;> simp [viewGet, relayInner, async_stream_tts_open, h, hE]
    · simp [viewGet, relayInner, async_stream_tts_open, h]

/-- Claim C1 as stated: when the upstream POST fails before any bytes
are forwarded, the view answers with the plain 500 response and never
prepares/commits the downstream 200 chunked response. -/
def claimC1statement : Prop :=
  ∀ (textQ voiceQ tempQ rpQ urlQ : Option String) (up : UpstreamMock) (df : Nat → Bool),
    upstreamPostFailed up = true →
      (viewGet textQ voiceQ tempQ rpQ urlQ up df).2 = Resp.plain 500 "Streaming error" ∧
      ∀ s, Ev.prepare s ∉ (viewGet textQ voiceQ tempQ rpQ urlQ up df).1

/-- C1 is false as stated: on a request whose upstream POST raises a
connection error, the handler has already prepared and committed the
downstream 200 response — `resp.prepare(request)` (__init__.py line 142)
runs unconditionally before `engine.async_stream_tts` (line 145),
whatever the engine then does; the engine driven here is the
spec-modelled session-reusing variant absent from src/ (see `viewGet`). -/
theorem c1_counterexample : ¬ claimC1statement := by
  intro h
  exact (h none none none none none (.postError "connection refused") (fun _ => false)
    rfl).2 200 (by simp [viewGet, relayInner, async_stream_tts_open])

/-- C1 (amended): against the session-reusing engine variant the view
targets (absent from src/, modelled from the spec), if the upstream POST
fails (connection error, non-2xx status, or timeout) before any bytes
have been forwarded, the relay returns an HTTP 500 plain-text response
and forwards no bytes downstream, but the downstream 200 chunked
response has already been prepared/committed — it is the handler's very
first action (__init__.py line 142), before the upstream request is
issued. -/
theorem c1_amended (textQ voiceQ tempQ rpQ urlQ : Option String)
    (up : UpstreamMock) (df : Nat → Bool) (h : upstreamPostFailed up = true) :
    (viewGet textQ voiceQ tempQ rpQ urlQ up df).2 = Resp.plain 500 "Streaming error" ∧
    (viewGet textQ voiceQ tempQ rpQ urlQ up df).1.head? = some (Ev.prepare 200) ∧
    ∀ c, Ev.write c ∉ (viewGet textQ voiceQ tempQ rpQ urlQ up df).1 := by
  cases up with
  | postError e => simp [viewGet, relayInner, async_stream_tts_open]
  | response status chunks midErr =>
    have h2 : ¬ (200 ≤ status ∧ status < 300) := by
      by_contra hc
      simp [upstreamPostFailed, hc] at h
    simp [viewGet, relayInner, async_stream_tts_open, h2]

theorem c1_amended_witness :
    upstreamPostFailed (UpstreamMock.postError "connection refused") = true ∧
    ((viewGet none none none none none (UpstreamMock.postError "connection refused")
        (fun _ => false)).2 = Resp.plain 500 "Streaming error" ∧
      (viewGet none none none none none (UpstreamMock.postError "connection refused")
        (fun _ => false)).1.head? = some (Ev.prepare 200) ∧
      ∀ c, Ev.write c ∉ (viewGet none none none none none
        (UpstreamMock.postError "connection refused") (fun _ => false)).1) :=
  ⟨rfl, c1_amended none none none none none _ _ rfl⟩

/-- C6: with a 2xx upstream delivering chunks (each at most 8192 bytes,
as `iter_chunked(8192)` yields) and a clean end-of-body, the sink
receives exactly the non-empty chunks in receipt order followed by one
end-of-stream signal, each chunk is forwarded immediately after its
request and before the next request, and the upstream channel is closed
exactly once, after the last chunk.  The forwarding loop and `finally`
close are the handler's own src/ code (__init__.py lines 151-158); the
channel comes from the spec-modelled `async_stream_tts_open`. -/
theorem c6_stream_forwarding (textQ voiceQ tempQ rpQ urlQ : Option String)
    (status : Nat) (chunks : List (List Nat))
    (h2xx : 200 ≤ status ∧ status < 300)
    (_hsize : ∀ c ∈ chunks, c.length ≤ 8192) :
    sinkEvents (viewGet textQ voiceQ tempQ rpQ urlQ
        (.response status chunks false) (fun _ => false)).1 =
      (chunks.filter (fun c => !c.isEmpty)).map Ev.write ++ [Ev.writeEof] ∧
    writesFollowRequest (viewGet textQ voiceQ tempQ rpQ urlQ
        (.response status chunks false) (fun _ => false)).1 = true ∧
    (viewGet textQ voiceQ tempQ rpQ urlQ
        (.response status chunks false) (fun _ => false)).1.count Ev.closeUpstream = 1 ∧
    (viewGet textQ voiceQ tempQ rpQ urlQ
        (.response status chunks false) (fun _ => false)).1.getLast? =
      some Ev.closeUpstream ∧
    (viewGet textQ voiceQ tempQ rpQ urlQ
        (.response status chunks false) (fun _ => false)).2 = Resp.stream := by
  obtain ⟨hsink, hok⟩ := relayLoop_sink_success chunks 0
  have hwfr := writesFollowRequest_relayLoop chunks false (fun _ => false) 0
  have hcnt := relayLoop_count_close chunks false (fun _ => false) 0
  rcases hE : relayLoop chunks false (fun _ => false) 0 with ⟨evs, r⟩
  rw [hE] at hsink hok hwfr hcnt
  simp only at hsink hok hwfr hcnt
  subst hok
  have hview : viewGet textQ voiceQ tempQ rpQ urlQ
      (.response status chunks false) (fun _ => false) =
      (Ev.prepare 200 :: Ev.post (viewStreamPayload textQ voiceQ tempQ rpQ urlQ) ::
        (evs ++ [Ev.closeUpstream]), Resp.stream) := by
    simp [viewGet, relayInner, async_stream_tts_open, h2xx, hE]
  refine ⟨?_, ?_, ?_, ?_, ?_⟩
  · rw [hview]
    simpa [sinkEvents, List.filter_append] using hsink
  · rw [hview]
    exact hwfr
  · rw [hview]
    simp [List.count_cons, List.count_append, hcnt]
  · rw [hview]
    show ((Ev.prepare 200 :: Ev.post _ :: evs) ++ Ev.closeUpstream :: []).getLast? =
      some Ev.closeUpstream
    rw [List.getLast?_append_cons]
    rfl
  · rw [hview]

theorem c6_stream_forwarding_witness :
    (200 ≤ 200 ∧ 200 < 300) ∧ (∀ c ∈ [[1], [2], [3]], List.length c ≤ 8192) ∧
    (sinkEvents (viewGet none none none none none
        (.response 200 [[1], [2], [3]] false) (fun _ => false)).1 =
      ([[1], [2], [3]].filter (fun c => !c.isEmpty)).map Ev.write ++ [Ev.writeEof] ∧
    writesFollowRequest (viewGet none none none none none
        (.response 200 [[1], [2], [3]] false) (fun _ => false)).1 = true ∧
    (viewGet none none none none none
        (.response 200 [[1], [2], [3]] false) (fun _ => false)).1.count Ev.closeUpstream = 1 ∧
    (viewGet none none none none none
        (.response 200 [[1], [2], [3]] false) (fun _ => false)).1.getLast? =
      some Ev.closeUpstream ∧
    (viewGet none none none none none
        (.response 200 [[1], [2], [3]] false) (fun _ => false)).2 = Resp.stream) :=
  ⟨by decide, by decide,
    c6_stream_forwarding none none none none none 200 [[1], [2], [3]]
      (by decide) (by decide)⟩

/-- C8: on every exit of a streaming relay invocation on which the
upstream channel was opened — clean completion, downstream disconnect at
any point, upstream read error mid-stream, or non-2xx status — the
channel is closed exactly once, no chunk is requested after a downstream
write failure, and the handler returns a response (the stream, or the
caught-and-converted plain 500) rather than propagating an exception;
likewise a POST that never opens a channel yields the plain 500.  The
`try`/`finally`/`except` structure is the handler's own src/ code
(__init__.py lines 144-161); the channel comes from the spec-modelled
`async_stream_tts_open`. -/
theorem c8_cleanup_every_path (textQ voiceQ tempQ rpQ urlQ : Option String)
    (status : Nat) (chunks : List (List Nat)) (midErr : Bool) (e : String)
    (df : Nat → Bool) :
    (viewGet textQ voiceQ tempQ rpQ urlQ
        (.response status chunks midErr) df).1.count Ev.closeUpstream = 1 ∧
    noReqAfterWriteFail (viewGet textQ voiceQ tempQ rpQ urlQ
        (.response status chunks midErr) df).1 = true ∧
    ((viewGet textQ voiceQ tempQ rpQ urlQ (.response status chunks midErr) df).2 =
        Resp.stream ∨
      (viewGet textQ voiceQ tempQ rpQ urlQ (.response status chunks midErr) df).2 =
        Resp.plain 500 "Streaming error") ∧
    (viewGet textQ voiceQ tempQ rpQ urlQ (.postError e) df).2 =
      Resp.plain 500 "Streaming error" := by
  by_cases h : 200 ≤ status ∧ status < 300
  · have hcnt := relayLoop_count_close chunks midErr df 0
    have hnr := noReqAfterWriteFail_relayLoop chunks midErr df 0
    rcases hE : relayLoop chunks midErr df 0 with ⟨evs, r⟩
    rw [hE] at hcnt hnr
    simp only at hcnt hnr
    cases r with
    | ok u =>
      refine ⟨?_, ?_, Or.inl ?_, ?_⟩ <;>
        simp [viewGet, relayInner, async_stream_tts_open, h, hE, List.count_cons, List.count_append,
          hcnt, noReqAfterWriteFail, hnr]
    | error msg =>
      refine ⟨?_, ?_, Or.inr ?_, ?_⟩ <;>
        simp [viewGet, relayInner, async_stream_tts_open, h, hE, List.count_cons, List.count_append,
          hcnt, noReqAfterWriteFail, hnr]
  · refine ⟨?_, ?_, Or.inr ?_, ?_⟩ <;>
      simp [viewGet, relayInner, async_stream_tts_open, h, List.count_cons, noReqAfterWriteFail]

/-- C10: the streaming view is registered with `requires_auth = False`
(__init__.py line 104) and a GET with a missing `text` parameter is
treated as the empty string (line 114) — both directly src/ code — and
is still proxied upstream: the POST the handler issues through the
spec-modelled engine variant carries `text = ""`. -/
theorem c10_no_auth_missing_text :
    CynVoiceStreamView_requires_auth = false ∧
    viewText none = "" ∧
    ∀ (voiceQ tempQ rpQ urlQ : Option String) (up : UpstreamMock) (df : Nat → Bool),
      (viewStreamPayload none voiceQ tempQ rpQ urlQ).text = "" ∧
      Ev.post (viewStreamPayload none voiceQ tempQ rpQ urlQ) ∈
        (viewGet none voiceQ tempQ rpQ urlQ up df).1 := by
  refine ⟨rfl, rfl, ?_⟩
  intro voiceQ tempQ rpQ urlQ up df
  exact ⟨rfl, post_mem_viewGet none voiceQ tempQ rpQ urlQ up df⟩

end CynVoice
